import Mathlib

/-!
Shallow embedding of the OpenTelemetry Lambda collector extension entry point
(src/collector/main.go) and of the contracts it relies on.

The file models:
  * the environment-variable and parameter-store based config resolution
    (getSsmConfig, getConfig and the fallback wiring in main);
  * the lifecycle event loop (processEvents) as a function from a finite
    script of per-iteration observations (context-done flag, NextEvent
    result) to an exit kind and a trace of the actions performed
    (context checks, log calls, NextEvent calls, collector.Stop calls);
  * the startup sequencing of main (aws config load, config resolution,
    collector.Start, extension registration, event loop) with its fatal
    abort points.

External collaborators (the AWS SSM client, the extension HTTP client, the
collector engine, the filesystem) are modelled as explicit inputs: each run
is parameterised by the result each external call would return, and the
model records which calls were made.
-/

namespace OtelLambda

/-- Event kinds of the host next-event endpoint. In the extension package the
event type is a string; the two recognized values are INVOKE and SHUTDOWN. -/
abbrev EventType := String

/-- The INVOKE event kind constant of the extension package. -/
def Invoke : EventType := "INVOKE"

/-- The SHUTDOWN event kind constant of the extension package. -/
def Shutdown : EventType := "SHUTDOWN"

/-- The part of the next-event response that main.go inspects. -/
structure NextEventResponse where
  eventType : EventType
deriving DecidableEq, Repr

/-- Result of one extensionClient.NextEvent call: a Go (res, err) pair with
exactly one side set. -/
inductive PollResult where
  | err (msg : String)
  | ok (res : NextEventResponse)
deriving DecidableEq, Repr

/-- The observations one iteration of the event loop can make: whether the
context is already cancelled when the select statement runs, and, if not,
what the blocking NextEvent call returns. -/
structure LoopStep where
  ctxDone : Bool
  poll : PollResult
deriving DecidableEq, Repr

/-- Externally visible actions performed by the event loop, in program order. -/
inductive Action where
  | ctxCheck (done : Bool)
  | debugLog (s : String)
  | logEvent (res : NextEventResponse)
  | stopCall (stopErr : Option String)
  | pollNext (r : PollResult)
deriving DecidableEq, Repr

/-- Why the event loop returned. -/
inductive ExitKind where
  | ctxCancelled
  | pollError
  | shutdownEvent
deriving DecidableEq, Repr

/-- Embedding of processEvents (main.go lines 110-134). The Go loop runs
forever until one of its three return statements; here it consumes a finite
script of iteration observations, returning `none` as exit kind if the script
ends before the loop does. `stopErr` is the error value collector.Stop()
would return; the Go code discards it (the TODO on line 127), which the trace
records as a `stopCall` action carrying that value.

Per iteration: the select statement first observes the context (the done case
wins over default when the context is already cancelled); otherwise the body
logs, calls NextEvent, returns on error, logs the event, and on a SHUTDOWN
event calls collector.Stop, logs and returns. Any other event falls through
to the next iteration. -/
def processEvents (stopErr : Option String) : List LoopStep → Option ExitKind × List Action
  | [] => (none, [])
  | step :: rest =>
    if step.ctxDone then
      (some .ctxCancelled, [.ctxCheck true])
    else
      match step.poll with
      | .err msg =>
          (some .pollError,
           [.ctxCheck false, .debugLog "Waiting for event...", .pollNext (.err msg),
            .debugLog ("Error: " ++ msg), .debugLog "Exiting"])
      | .ok res =>
          if res.eventType = Shutdown then
            (some .shutdownEvent,
             [.ctxCheck false, .debugLog "Waiting for event...", .pollNext (.ok res),
              .logEvent res, .stopCall stopErr,
              .debugLog "Received SHUTDOWN event", .debugLog "Exiting"])
          else
            let o := processEvents stopErr rest
            (o.1,
             .ctxCheck false :: .debugLog "Waiting for event..." :: .pollNext (.ok res) ::
               .logEvent res :: o.2)

/-- Whether an action is a collector.Stop call. -/
def Action.isStop : Action → Bool
  | .stopCall _ => true
  | _ => false

/-- Whether an action is an extensionClient.NextEvent call. -/
def Action.isPoll : Action → Bool
  | .pollNext _ => true
  | _ => false

/-- Number of collector.Stop calls in a trace. -/
def countStop (tr : List Action) : Nat := (tr.filter Action.isStop).length

/-- Number of NextEvent calls in a trace. -/
def countPoll (tr : List Action) : Nat := (tr.filter Action.isPoll).length

/-- The strings passed to the logger in a trace, in order. -/
def logsOf (tr : List Action) : List String :=
  tr.filterMap fun a =>
    match a with
    | .debugLog s => some s
    | _ => none

/-- True when no NextEvent call occurs after the first collector.Stop call. -/
def noPollAfterStop : List Action → Bool
  | [] => true
  | .stopCall _ :: rest => rest.all fun a => ! a.isPoll
  | _ :: rest => noPollAfterStop rest

/-! ## Config resolution -/

/-- A set of environment variables (name, value); os.LookupEnv on the model. -/
abbrev EnvMap := List (String × String)

/-- os.LookupEnv: the value of the first binding of the key, if any. -/
def lookupEnv (env : EnvMap) (key : String) : Option String :=
  (env.find? fun p => p.1 == key).map Prod.snd

/-- Embedding of getConfig (main.go lines 100-108): return the value of
OPENTELEMETRY_COLLECTOR_CONFIG_FILE when it is present in the environment
(whatever its value), else the built-in default path. -/
def getConfig (env : EnvMap) : String :=
  match lookupEnv env "OPENTELEMETRY_COLLECTOR_CONFIG_FILE" with
  | none => "/opt/collector-config/config.yaml"
  | some val => val

/-- The aws-sdk GetParameter output: Parameter is a nullable pointer whose
Value field is again a nullable string pointer. -/
structure Parameter where
  value : Option String
deriving DecidableEq, Repr

/-- GetParameter response shape used by getSsmConfig. -/
structure GetParameterOutput where
  parameter : Option Parameter
deriving DecidableEq, Repr

/-- Outcome of a Go computation that may return a value, return an error, or
panic (a nil-pointer dereference). -/
inductive GoResult (α : Type) where
  | ok (a : α)
  | err (msg : String)
  | panicked (msg : String)
deriving DecidableEq, Repr

/-- Whether a GoResult is a panic. -/
def GoResult.isPanicked {α : Type} : GoResult α → Bool
  | .panicked _ => true
  | _ => false

/-- The outcomes the external calls made by getSsmConfig would produce:
the SSM GetParameter reply for the configured parameter name, and the error
values (if any) of os.Create and file.WriteString at the temp path. -/
structure SsmEnv where
  getParameter : Except String GetParameterOutput
  createErr : Option String
  writeErr : Option String

/-- A filesystem as an association list from paths to contents; later writes
shadow earlier ones. -/
abbrev Fs := List (String × String)

/-- Write (create or overwrite) a file. -/
def writeFs (fs : Fs) (path content : String) : Fs := (path, content) :: fs

/-- Read a file's contents, if the file exists. -/
def readFs (fs : Fs) (path : String) : Option String :=
  (fs.find? fun p => p.1 == path).map Prod.snd

/-- Embedding of getSsmConfig (main.go lines 81-98). Fetch the parameter;
on error return it. Otherwise create (truncate) the temp file
"/tmp/ssm_collector.yml"; on error return it. Then evaluate
output.Parameter.Value: the Go code dereferences both pointers with no nil
check, so a success reply with a nil Parameter or nil Value panics here.
Otherwise write the value to the file, returning the write error if any,
else the temp path. -/
def getSsmConfig (ssm : SsmEnv) (fs : Fs) : GoResult String × Fs :=
  match ssm.getParameter with
  | .error e => (.err e, fs)
  | .ok output =>
    let path := "/tmp/" ++ "ssm_collector.yml"
    match ssm.createErr with
    | some e => (.err e, fs)
    | none =>
      let fs1 := writeFs fs path ""
      match output.parameter with
      | none => (.panicked "runtime error: invalid memory address or nil pointer dereference", fs1)
      | some p =>
        match p.value with
        | none =>
            (.panicked "runtime error: invalid memory address or nil pointer dereference", fs1)
        | some v =>
          match ssm.writeErr with
          | some e => (.err e, fs1)
          | none => (.ok path, writeFs fs1 path v)

/-- Embedding of the config-resolution wiring in main (main.go lines 50-54):
use getSsmConfig's path on success; on error log it and fall back to
getConfig. A panic inside getSsmConfig propagates. -/
def resolveConfig (ssm : SsmEnv) (env : EnvMap) (fs : Fs) : GoResult String × Fs :=
  match getSsmConfig ssm fs with
  | (.ok path, fs1) => (.ok path, fs1)
  | (.err _, fs1) => (.ok (getConfig env), fs1)
  | (.panicked m, fs1) => (.panicked m, fs1)

/-! ## The main sequence -/

/-- The outcomes the external calls made by main would produce, plus the
event-loop script. -/
structure MainEnv where
  awsConfigErr : Option String
  ssm : SsmEnv
  env : EnvMap
  startErr : Option String
  registerErr : Option String
  stopErr : Option String
  loopSteps : List LoopStep

/-- How the process terminated: a panic, a log.Fatalf at one of the two fatal
startup checks, or a return from processEvents (after which main ends). -/
inductive MainExit where
  | panicked (msg : String)
  | fatalStart (msg : String)
  | fatalRegister (msg : String)
  | loopReturned (le : Option ExitKind)
deriving DecidableEq, Repr

/-- What a run of main did: how it exited, whether collector.Start and
extensionClient.Register were called, the event-loop action trace (empty when
the loop never ran), and the resolved config path if resolution completed. -/
structure MainResult where
  exit : MainExit
  startCalled : Bool
  registerCalled : Bool
  loopTrace : List Action
  configPath : Option String
deriving DecidableEq, Repr

/-- main from line 55 on, after the config path is resolved: collector.Start
(log.Fatalf on error, main.go lines 58-60), extensionClient.Register
(log.Fatalf on error, lines 71-74), then processEvents (line 78), after which
main — and the process — exits. -/
def runMainFrom (m : MainEnv) (config : String) : MainResult :=
  match m.startErr with
  | some e => ⟨.fatalStart e, true, false, [], some config⟩
  | none =>
    match m.registerErr with
    | some e => ⟨.fatalRegister e, true, true, [], some config⟩
    | none =>
      let o := processEvents m.stopErr m.loopSteps
      ⟨.loopReturned o.1, true, true, o.2, some config⟩

/-- Embedding of main (main.go lines 41-79): load the AWS config (panic on
error), resolve the config path (getSsmConfig with fallback to getConfig,
lines 50-54), then continue with runMainFrom. -/
def runMain (m : MainEnv) (fs : Fs) : MainResult :=
  match m.awsConfigErr with
  | some e => ⟨.panicked ("configuration error, " ++ e), false, false, [], none⟩
  | none =>
    match getSsmConfig m.ssm fs with
    | (.panicked msg, _) => ⟨.panicked msg, false, false, [], none⟩
    | (.ok config, _) => runMainFrom m config
    | (.err _, _) => runMainFrom m (getConfig m.env)

/-! ## Shared lemmas about the event loop -/

/-- The loop calls collector.Stop exactly when it exits on a SHUTDOWN event,
and then exactly once; on every other outcome (cancellation, poll error,
script exhausted) it performs no Stop call at all. -/
theorem countStop_processEvents (stopErr : Option String) (steps : List LoopStep) :
    countStop (processEvents stopErr steps).2 =
      (if (processEvents stopErr steps).1 = some ExitKind.shutdownEvent then 1 else 0) := by
  induction steps with
  | nil => simp [processEvents, countStop]
  | cons step rest ih =>
    by_cases h : step.ctxDone
    · simp [processEvents, h, countStop, Action.isStop]
    · cases hp : step.poll with
      | err msg => simp [processEvents, h, hp, countStop, Action.isStop]
      | ok res =>
        by_cases hs : res.eventType = Shutdown
        · simp [processEvents, h, hp, hs, countStop, Action.isStop]
        · simpa [processEvents, h, hp, hs, countStop, Action.isStop] using ih

/-- After the collector.Stop call (if any) the loop makes no further
NextEvent call. -/
theorem noPollAfterStop_processEvents (stopErr : Option String) (steps : List LoopStep) :
    noPollAfterStop (processEvents stopErr steps).2 = true := by
  induction steps with
  | nil => simp [processEvents, noPollAfterStop]
  | cons step rest ih =>
    by_cases h : step.ctxDone
    · simp [processEvents, h, noPollAfterStop, Action.isStop]
    · cases hp : step.poll with
      | err msg => simp [processEvents, h, hp, noPollAfterStop, Action.isPoll]
      | ok res =>
        by_cases hs : res.eventType = Shutdown
        · simp [processEvents, h, hp, hs, noPollAfterStop, Action.isPoll, List.all]
        · simpa [processEvents, h, hp, hs, noPollAfterStop] using ih

/-- countStop of runMainFrom's loop trace, phrased against the main exit. -/
theorem countStop_runMainFrom (m : MainEnv) (config : String) :
    countStop (runMainFrom m config).loopTrace =
      (if (runMainFrom m config).exit = MainExit.loopReturned (some ExitKind.shutdownEvent)
        then 1 else 0) := by
  unfold runMainFrom
  cases m.startErr with
  | some e => simp [countStop]
  | none =>
    cases m.registerErr with
    | some e => simp [countStop]
    | none =>
      simp only [MainExit.loopReturned.injEq]
      exact countStop_processEvents m.stopErr m.loopSteps

/-! ## Claim theorems: the event loop -/

/-- C1 counterexample input: AWS config loads, the remote parameter fetch
fails (fallback path), collector.Start and Register succeed, and the shared
context is already cancelled when the loop's first iteration runs. -/
def cancelledRunEnv : MainEnv :=
  { awsConfigErr := none
  , ssm := { getParameter := .error "ParameterNotFound", createErr := none, writeErr := none }
  , env := []
  , startErr := none
  , registerErr := none
  , stopErr := none
  , loopSteps := [{ ctxDone := true, poll := .err "" }] }

/-- C1 (counterexample): a run that exits via the cancellation signal
terminates the process with zero collector.Stop calls, even though the
collector was started — so not every exit path stops the collector. -/
theorem cancellation_exit_without_stop_cex :
    (runMain cancelledRunEnv []).exit = MainExit.loopReturned (some ExitKind.ctxCancelled) ∧
      (runMain cancelledRunEnv []).startCalled = true ∧
      countStop (runMain cancelledRunEnv []).loopTrace = 0 := by
  refine ⟨rfl, rfl, rfl⟩

/-- C1 (amended): CollectorSupervisor.Stop is invoked before process exit
exactly on the shutdown-event exit path; on the cancellation-signal and
NextEvent-error exit paths (and on fatal startup aborts) the process exits
with no Stop call — main performs no stop after processEvents returns. -/
theorem stop_called_iff_shutdown_exit (m : MainEnv) (fs : Fs) :
    countStop (runMain m fs).loopTrace =
      (if (runMain m fs).exit = MainExit.loopReturned (some ExitKind.shutdownEvent)
        then 1 else 0) := by
  unfold runMain
  cases m.awsConfigErr with
  | some e => simp [countStop]
  | none =>
    rcases hg : getSsmConfig m.ssm fs with ⟨r, fs1⟩
    cases r with
    | panicked msg => simp [countStop]
    | ok config => exact countStop_runMainFrom m config
    | err msg => exact countStop_runMainFrom m (getConfig m.env)

/-- C2: in every run of the event loop, collector.Stop is called at most
once; after the Stop call no further NextEvent call is made (the loop has
exited); and Stop is called (then exactly once) precisely when the loop exited
on a SHUTDOWN event — a second shutdown event can never produce a second Stop
call. -/
theorem shutdown_stop_exactly_once (stopErr : Option String) (steps : List LoopStep) :
    countStop (processEvents stopErr steps).2 ≤ 1 ∧
      noPollAfterStop (processEvents stopErr steps).2 = true ∧
      ((processEvents stopErr steps).1 = some ExitKind.shutdownEvent ↔
        countStop (processEvents stopErr steps).2 = 1) := by
  refine ⟨?_, noPollAfterStop_processEvents stopErr steps, ?_⟩
  · rw [countStop_processEvents]
    split <;> simp
  · rw [countStop_processEvents]
    constructor
    · intro h
      rw [if_pos h]
    · intro h
      by_contra hne
      rw [if_neg hne] at h
      exact absurd h (by simp)

/-- C2 witness: a script delivering one SHUTDOWN event. -/
theorem shutdown_stop_exactly_once_witness :
    countStop
        (processEvents none [{ ctxDone := false, poll := .ok { eventType := Shutdown } }]).2 = 1 ∧
      noPollAfterStop
        (processEvents none [{ ctxDone := false, poll := .ok { eventType := Shutdown } }]).2 =
        true :=
  ⟨(shutdown_stop_exactly_once none
      [{ ctxDone := false, poll := .ok { eventType := Shutdown } }]).2.2.mp (by decide),
   (shutdown_stop_exactly_once none
      [{ ctxDone := false, poll := .ok { eventType := Shutdown } }]).2.1⟩

/-- C6: each loop iteration observes the cancellation signal first: when the
context is already done at the select, the loop returns at once — the trace is
a single context check, with no NextEvent call — and otherwise the iteration
proceeds to the blocking NextEvent call on that step's poll result. -/
theorem ctx_checked_first_each_iteration (stopErr : Option String) (step : LoopStep)
    (rest : List LoopStep) :
    (step.ctxDone = true →
      processEvents stopErr (step :: rest) =
          (some ExitKind.ctxCancelled, [Action.ctxCheck true]) ∧
        countPoll (processEvents stopErr (step :: rest)).2 = 0) ∧
    (step.ctxDone = false →
      ∃ tl, (processEvents stopErr (step :: rest)).2 =
        Action.ctxCheck false :: Action.debugLog "Waiting for event..." ::
          Action.pollNext step.poll :: tl) := by
  constructor
  · intro h
    refine ⟨by simp [processEvents, h], ?_⟩
    simp [processEvents, h, countPoll, Action.isPoll]
  · intro h
    cases hp : step.poll with
    | err msg =>
      exact ⟨[Action.debugLog ("Error: " ++ msg), Action.debugLog "Exiting"],
        by simp [processEvents, h, hp]⟩
    | ok res =>
      by_cases hs : res.eventType = Shutdown
      · exact ⟨[Action.logEvent res, Action.stopCall stopErr,
          Action.debugLog "Received SHUTDOWN event", Action.debugLog "Exiting"],
          by simp [processEvents, h, hp, hs]⟩
      · exact ⟨Action.logEvent res :: (processEvents stopErr rest).2,
          by simp [processEvents, h, hp, hs]⟩

/-- C6 witness: a cancelled first iteration, and a live first iteration. -/
theorem ctx_checked_first_each_iteration_witness :
    (processEvents none [{ ctxDone := true, poll := .err "boom" }] =
        (some ExitKind.ctxCancelled, [Action.ctxCheck true]) ∧
      countPoll (processEvents none [{ ctxDone := true, poll := .err "boom" }]).2 = 0) ∧
    ∃ tl, (processEvents none [{ ctxDone := false, poll := .err "boom" }]).2 =
      Action.ctxCheck false :: Action.debugLog "Waiting for event..." ::
        Action.pollNext (PollResult.err "boom") :: tl :=
  ⟨(ctx_checked_first_each_iteration none { ctxDone := true, poll := .err "boom" } []).1 rfl,
   (ctx_checked_first_each_iteration none { ctxDone := false, poll := .err "boom" } []).2 rfl⟩

/-- C7: any NextEvent error makes the loop log it and return gracefully: the
exit kind is pollError (not a panic or crash), exactly one NextEvent call was
made this run, no collector action is attempted, and the rest of the script is
never consulted — no further events are polled. -/
theorem poll_error_graceful_exit (stopErr : Option String) (step : LoopStep)
    (rest : List LoopStep) (msg : String) (hd : step.ctxDone = false)
    (hp : step.poll = PollResult.err msg) :
    processEvents stopErr (step :: rest) =
        (some ExitKind.pollError,
         [Action.ctxCheck false, Action.debugLog "Waiting for event...",
          Action.pollNext (PollResult.err msg), Action.debugLog ("Error: " ++ msg),
          Action.debugLog "Exiting"]) ∧
      countPoll (processEvents stopErr (step :: rest)).2 = 1 := by
  refine ⟨by simp [processEvents, hd, hp], ?_⟩
  simp [processEvents, hd, hp, countPoll, Action.isPoll]

/-- C7 witness: a poll failing on the first iteration of a longer script. -/
theorem poll_error_graceful_exit_witness :
    processEvents none
        [{ ctxDone := false, poll := .err "connection reset" },
         { ctxDone := false, poll := .ok { eventType := Shutdown } }] =
        (some ExitKind.pollError,
         [Action.ctxCheck false, Action.debugLog "Waiting for event...",
          Action.pollNext (PollResult.err "connection reset"),
          Action.debugLog ("Error: " ++ "connection reset"), Action.debugLog "Exiting"]) ∧
      countPoll
        (processEvents none
          [{ ctxDone := false, poll := .err "connection reset" },
           { ctxDone := false, poll := .ok { eventType := Shutdown } }]).2 = 1 :=
  poll_error_graceful_exit none { ctxDone := false, poll := .err "connection reset" }
    [{ ctxDone := false, poll := .ok { eventType := Shutdown } }] "connection reset" rfl rfl

/-- C8 (counterexample): a run in which collector.Stop returns the error
"flush failed": the loop still exits on the shutdown event, but the log trace
is exactly the three fixed literals — the stop failure is discarded, it is
logged nowhere. -/
theorem stop_error_not_logged_cex :
    processEvents (some "flush failed")
        [{ ctxDone := false, poll := .ok { eventType := "SHUTDOWN" } }] =
        (some ExitKind.shutdownEvent,
         [Action.ctxCheck false, Action.debugLog "Waiting for event...",
          Action.pollNext (.ok { eventType := "SHUTDOWN" }),
          Action.logEvent { eventType := "SHUTDOWN" },
          Action.stopCall (some "flush failed"),
          Action.debugLog "Received SHUTDOWN event", Action.debugLog "Exiting"]) ∧
      logsOf
          (processEvents (some "flush failed")
            [{ ctxDone := false, poll := .ok { eventType := "SHUTDOWN" } }]).2 =
        ["Waiting for event...", "Received SHUTDOWN event", "Exiting"] :=
  ⟨rfl, rfl⟩

/-- C8 (amended): when collector.Stop fails during shutdown handling, the
returned error is discarded — it appears in no log call and has no influence
on the loop's exit — and it does not prevent the loop from returning and the
process from exiting: the exit kind and the logged strings are identical
whatever value Stop returns. -/
theorem stop_error_discarded (e e' : Option String) (steps : List LoopStep) :
    (processEvents e steps).1 = (processEvents e' steps).1 ∧
      logsOf (processEvents e steps).2 = logsOf (processEvents e' steps).2 := by
  induction steps with
  | nil => simp [processEvents]
  | cons step rest ih =>
    by_cases h : step.ctxDone
    · simp [processEvents, h]
    · cases hp : step.poll with
      | err msg => simp [processEvents, h, hp]
      | ok res =>
        by_cases hs : res.eventType = Shutdown
        · simp [processEvents, h, hp, hs, logsOf]
        · simpa [processEvents, h, hp, hs, logsOf] using ih

/-! ## Claim theorems: config resolution and startup ordering -/

/-- C3: whenever the remote fetch path fails with an error (parameter absent,
network or auth error, create or write error), config resolution does not
raise: it returns — as an ordinary value — the local-override environment
variable's value when that variable is set, else the built-in default path
literal. -/
theorem fallback_on_fetch_failure (ssm : SsmEnv) (env : EnvMap) (fs fs1 : Fs) (e : String)
    (h : getSsmConfig ssm fs = (GoResult.err e, fs1)) :
    resolveConfig ssm env fs =
      (GoResult.ok
        (match lookupEnv env "OPENTELEMETRY_COLLECTOR_CONFIG_FILE" with
          | some v => v
          | none => "/opt/collector-config/config.yaml"), fs1) := by
  unfold resolveConfig
  rw [h]
  unfold getConfig
  cases lookupEnv env "OPENTELEMETRY_COLLECTOR_CONFIG_FILE" <;> rfl

/-- C3 witness: fetch rejected, no override set — the default path comes
back, and separately with the override set — the override comes back. -/
theorem fallback_on_fetch_failure_witness :
    resolveConfig { getParameter := .error "AccessDenied", createErr := none, writeErr := none }
        [] [] = (GoResult.ok "/opt/collector-config/config.yaml", []) ∧
      resolveConfig { getParameter := .error "AccessDenied", createErr := none, writeErr := none }
        [("OPENTELEMETRY_COLLECTOR_CONFIG_FILE", "/var/task/conf.yaml")] [] =
        (GoResult.ok "/var/task/conf.yaml", []) :=
  ⟨fallback_on_fetch_failure _ [] [] [] "AccessDenied" rfl,
   fallback_on_fetch_failure _ [("OPENTELEMETRY_COLLECTOR_CONFIG_FILE", "/var/task/conf.yaml")]
     [] [] "AccessDenied" rfl⟩

/-- C4: on every successful remote-path outcome — the fetch returned a
parameter carrying a value v and neither the create nor the write at the temp
file failed — getSsmConfig returns the fixed temporary path
"/tmp/ssm_collector.yml" and the file now at that path contains exactly v
(verbatim round-trip of the fetched value). -/
theorem ssm_success_roundtrip (ssm : SsmEnv) (fs : Fs) (out : GetParameterOutput)
    (param : Parameter) (v : String) (hg : ssm.getParameter = Except.ok out)
    (hpar : out.parameter = some param) (hv : param.value = some v)
    (hc : ssm.createErr = none) (hw : ssm.writeErr = none) :
    (getSsmConfig ssm fs).1 = GoResult.ok "/tmp/ssm_collector.yml" ∧
      readFs (getSsmConfig ssm fs).2 "/tmp/ssm_collector.yml" = some v := by
  simp [getSsmConfig, hg, hpar, hv, hc, hw, readFs, writeFs]

/-- C4 witness input: the spec's scenario — the store returns
"receivers: []\n" and both file operations succeed. -/
def receiversSsm : SsmEnv :=
  { getParameter := .ok { parameter := some { value := some "receivers: []\n" } }
  , createErr := none
  , writeErr := none }

/-- C4 witness: the resolved file at the fixed temp path literally contains
"receivers: []\n". -/
theorem ssm_success_roundtrip_witness :
    (getSsmConfig receiversSsm []).1 = GoResult.ok "/tmp/ssm_collector.yml" ∧
      readFs (getSsmConfig receiversSsm []).2 "/tmp/ssm_collector.yml" =
        some "receivers: []\n" :=
  ssm_success_roundtrip receiversSsm [] { parameter := some { value := some "receivers: []\n" } }
    { value := some "receivers: []\n" } "receivers: []\n" rfl rfl rfl rfl rfl

/-- C9: the never-raises guarantee of config resolution indeed needs the
unstated precondition that a successful GetParameter reply carries a non-nil
Parameter.Value: when the fetch succeeds and the temp file is created, a nil
Parameter — or a nil Value inside it — makes getSsmConfig (and so the whole
resolution) panic on the unconditional dereference instead of returning an
error and falling back. -/
theorem nil_parameter_panics (ssm : SsmEnv) (env : EnvMap) (fs : Fs)
    (out : GetParameterOutput) (hg : ssm.getParameter = Except.ok out)
    (hc : ssm.createErr = none)
    (hnil : out.parameter = none ∨ ∃ p, out.parameter = some p ∧ p.value = none) :
    (resolveConfig ssm env fs).1 =
      GoResult.panicked "runtime error: invalid memory address or nil pointer dereference" := by
  rcases hnil with hp | ⟨p, hp, hv⟩
  · simp [resolveConfig, getSsmConfig, hg, hc, hp]
  · simp [resolveConfig, getSsmConfig, hg, hc, hp, hv]

/-- C9 witness input: a success reply whose Parameter pointer is nil. -/
def nilParamSsm : SsmEnv :=
  { getParameter := .ok { parameter := none }
  , createErr := none
  , writeErr := none }

/-- C9 witness: config resolution panics on the nil-Parameter success reply. -/
theorem nil_parameter_panics_witness :
    (resolveConfig nilParamSsm [] []).1 =
      GoResult.panicked "runtime error: invalid memory address or nil pointer dereference" :=
  nil_parameter_panics nilParamSsm [] [] { parameter := none } rfl rfl (Or.inl rfl)

/-- C10: the local override is honored verbatim whenever the variable is
present, its value notwithstanding: with OPENTELEMETRY_COLLECTOR_CONFIG_FILE
set to the empty string, getConfig returns the empty string, not the built-in
default path. -/
theorem empty_override_honored (env : EnvMap)
    (h : lookupEnv env "OPENTELEMETRY_COLLECTOR_CONFIG_FILE" = some "") :
    getConfig env = "" ∧ getConfig env ≠ "/opt/collector-config/config.yaml" := by
  unfold getConfig
  rw [h]
  exact ⟨rfl, by decide⟩

/-- C10 witness: an environment binding the override to the empty string. -/
theorem empty_override_honored_witness :
    getConfig [("OPENTELEMETRY_COLLECTOR_CONFIG_FILE", "")] = "" ∧
      getConfig [("OPENTELEMETRY_COLLECTOR_CONFIG_FILE", "")] ≠
        "/opt/collector-config/config.yaml" :=
  empty_override_honored [("OPENTELEMETRY_COLLECTOR_CONFIG_FILE", "")] rfl

/-- C5: when collector.Start fails (on any run that reaches it: AWS config
loaded and config resolution did not panic), main aborts fatally at once —
Start was called, extensionClient.Register is never called, and the event
loop never runs. -/
theorem start_failure_blocks_register (m : MainEnv) (fs : Fs) (e : String)
    (ha : m.awsConfigErr = none) (hs : m.startErr = some e)
    (hnp : (getSsmConfig m.ssm fs).1.isPanicked = false) :
    (runMain m fs).exit = MainExit.fatalStart e ∧
      (runMain m fs).startCalled = true ∧
      (runMain m fs).registerCalled = false ∧
      (runMain m fs).loopTrace = [] := by
  unfold runMain
  rw [ha]
  rcases hg : getSsmConfig m.ssm fs with ⟨r, fs1⟩
  rw [hg] at hnp
  cases r with
  | panicked msg => simp [GoResult.isPanicked] at hnp
  | ok config => simp [runMainFrom, hs]
  | err msg => simp [runMainFrom, hs]

/-- C5 witness input: a healthy startup up to a failing collector.Start. -/
def startFailEnv : MainEnv :=
  { awsConfigErr := none
  , ssm := { getParameter := .error "ParameterNotFound", createErr := none, writeErr := none }
  , env := []
  , startErr := some "invalid configuration"
  , registerErr := none
  , stopErr := none
  , loopSteps := [{ ctxDone := false, poll := .ok { eventType := Shutdown } }] }

/-- C5 witness: with collector.Start failing, main aborts fatally — Register
is never called and the event loop never runs. -/
theorem start_failure_blocks_register_witness :
    (runMain startFailEnv []).exit = MainExit.fatalStart "invalid configuration" ∧
      (runMain startFailEnv []).startCalled = true ∧
      (runMain startFailEnv []).registerCalled = false ∧
      (runMain startFailEnv []).loopTrace = [] :=
  start_failure_blocks_register startFailEnv [] "invalid configuration" rfl rfl rfl

end OtelLambda
